import Mathlib

/-
Verification of the funding convergence engine of this repository
(the TestFunder class and its main entry point).

Modelling conventions, stated once:
  * Balances, allowances and amounts are natural numbers.  The source
    reads them as decimal strings and parses them with parseInt; the
    parse of a decimal numeric string is modelled as the exact value.
  * External send commands (cast send) are modelled on their happy
    path, exit status 0, so the Bool a step returns is the status
    comparison of the source.  The retry wrapper around clearBalance
    inside transferPayload therefore collapses to one successful call.
  * Exceptions thrown by the command runner are modelled by the
    StepOutcome.throws constructor and by Except.error values; the
    message spawnErrMsg stands for the propagated exception object of
    a process launch failure.
  * A step function of the orchestrator is modelled as a map from its
    invocation index (0, 1, 2, ...) to the outcome of that invocation,
    so call counts are observable.
-/

/-- Error message thrown by TestFunder.retry when its budget is spent. -/
def retryFailMsg : String := "Failed to execute function"

/-- Error message thrown by TestFunder.validate for a low allowance. -/
def allowanceErrMsg : String := "Allowance is not set correctly"

/-- Error message thrown by TestFunder.validate for a low balance. -/
def balanceErrMsg : String := "Balance is not set correctly"

/-- Error message thrown by main when the Anvil wait loop gives up. -/
def anvilErrMsg : String := "Could not connect to Anvil"

/-- Stands for the exception object rethrown by TestFunder.exec on a
process launch failure (result.error). -/
def spawnErrMsg : String := "spawn error"

/-- Outcome of a single invocation of a step function: the promise
resolves true, resolves false, or rejects (the command runner threw). -/
inductive StepOutcome
  | success
  | failure
  | throws
deriving DecidableEq, Repr

/-- A transfer command issued by the reconciler: direction and amount.
toWhale is a cast send from the funding wallet back to the whale;
toFunding is a cast send from the whale to the funding wallet. -/
inductive Xfer
  | toWhale (amount : Nat)
  | toFunding (amount : Nat)
deriving DecidableEq, Repr

/-- TestFunder.retry, lines 138-152 of the source.  fn maps the global
invocation index of the step to its outcome; fuel is the remaining
budget (retries = 5 at the call sites), i the next invocation index,
prev the current value of the isSuccess variable (initially false; a
caught throw leaves it unchanged, a false resolution sets it false, a
true resolution returns at once).  Returns the resolved boolean or the
thrown error, paired with the total number of invocations made. -/
def retryRun (fn : Nat → StepOutcome) : Nat → Nat → Bool → Except String Bool × Nat
  | 0, i, _ => (Except.error retryFailMsg, i)
  | fuel + 1, i, prev =>
      let s : Bool :=
        match fn i with
        | StepOutcome.success => true
        | StepOutcome.failure => false
        | StepOutcome.throws => prev
      if s then (Except.ok s, i + 1) else retryRun fn fuel (i + 1) s

/-- TestFunder.clearBalance, lines 267-292: re-reads the funding
balance bal, computes difference = bal - target, and sends exactly that
amount from the funding wallet to the whale.  Returns the status
boolean, the resulting funding balance, and the transfer issued. -/
def clearBalance (target bal : Nat) : Bool × Nat × List Xfer :=
  (true, bal - (bal - target), [Xfer.toWhale (bal - target)])

/-- TestFunder.transferPayload, lines 235-265: reads the funding
balance; if it equals the expected balance, returns true at once; if it
exceeds it, runs clearBalance under retry; then (in both of the latter
cases, since only the equality branch returns) sends the full expected
balance from the whale to the funding wallet.  Returns the status
boolean, the final funding balance, and the list of transfers issued. -/
def transferPayload (target bal : Nat) : Bool × Nat × List Xfer :=
  if bal = target then (true, bal, [])
  else
    let step := if target < bal then clearBalance target bal else (true, bal, [])
    (true, step.2.1 + target, step.2.2 ++ [Xfer.toFunding target])

/-- TestFunder.validate, lines 154-168: reads allowance then balance,
throws allowanceErrMsg when allowance is below the expected allowance,
else throws balanceErrMsg when balance is below the expected balance,
else succeeds. -/
def validate (allowanceFloor balanceTarget allowance balance : Nat) : Except String Unit :=
  if allowance < allowanceFloor then Except.error allowanceErrMsg
  else if balance < balanceTarget then Except.error balanceErrMsg
  else Except.ok ()

/-- One step of TestFunder.execute, lines 115-126: the step function is
first invoked directly, outside any try block; a true resolution passes
with one call; a throw on that direct call propagates uncaught; a false
resolution enters this.retry(fn), whose further invocations continue
the index sequence at 1 with budget r.  On a resolved retry the Bool
carried is the sawFalse flag: true exactly when retry resolved false
(which would set isMoving to false in the source). -/
def runStepE (fn : Nat → StepOutcome) (r : Nat) : Except (Nat × String) (Nat × Bool) :=
  match fn 0 with
  | StepOutcome.success => Except.ok (1, false)
  | StepOutcome.throws => Except.error (1, spawnErrMsg)
  | StepOutcome.failure =>
      match retryRun fn r 1 false with
      | (Except.ok b, n) => Except.ok (n, !b)
      | (Except.error m, n) => Except.error (n, m)

/-- Trace of one call of TestFunder.execute: how many times each step
function was invoked, whether the isMoving flag was ever set false by a
false resolution of retry, and the terminal outcome. -/
structure ExecTrace where
  impCalls : Nat
  appCalls : Nat
  traCalls : Nat
  sawFalse : Bool
  outcome : Except String Unit
deriving Repr

/-- TestFunder.execute, lines 101-136, composed with the final
validate call (line 134) whose result is passed in as validateR.  The
steps run in the fixed order impersonate, approveFunding, transfer; an
error thrown by a step (directly or by retry exhaustion) propagates at
once, skipping the remaining steps and validate; a false resolution of
retry only clears isMoving, and the for loop still visits the remaining
steps before the while loop exits into validate. -/
def execute (imp app tra : Nat → StepOutcome) (r : Nat)
    (validateR : Except String Unit) : ExecTrace :=
  match runStepE imp r with
  | Except.error (c, m) => ⟨c, 0, 0, false, Except.error m⟩
  | Except.ok (c1, f1) =>
      match runStepE app r with
      | Except.error (c, m) => ⟨c1, c, 0, f1, Except.error m⟩
      | Except.ok (c2, f2) =>
          match runStepE tra r with
          | Except.error (c, m) => ⟨c1, c2, c, f1 || f2, Except.error m⟩
          | Except.ok (c3, f3) => ⟨c1, c2, c3, f1 || f2 || f3, validateR⟩

/-- The Anvil readiness loop of main, lines 324-336.  ping maps the
probe attempt index to whether pingAnvil resolved true; k is the next
attempt index, the second argument the current retries counter.  Each
iteration probes, decrements retries, and throws anvilErrMsg as soon as
the counter reaches zero, before the while condition can observe a
successful probe of that final iteration. -/
def anvilWait (ping : Nat → Bool) : Nat → Nat → Except String Unit
  | _, 0 => Except.ok ()
  | k, r + 1 =>
      if r = 0 then Except.error anvilErrMsg
      else if ping k then Except.ok ()
      else anvilWait ping (k + 1) r

/-- Helper: when no invocation of fn succeeds, the retry loop consumes
its whole budget and throws, having made exactly fuel further calls. -/
theorem retryRun_always_fail (fn : Nat → StepOutcome)
    (h : ∀ k, fn k ≠ StepOutcome.success) :
    ∀ fuel i, retryRun fn fuel i false = (Except.error retryFailMsg, i + fuel) := by
  intro fuel
  induction fuel with
  | zero => intro i; simp [retryRun]
  | succ n ih =>
      intro i
      cases hfn : fn i with
      | success => exact absurd hfn (h i)
      | failure =>
          have harith : i + (n + 1) = i + 1 + n := by omega
          rw [harith]
          simp only [retryRun, hfn]
          exact ih (i + 1)
      | throws =>
          have harith : i + (n + 1) = i + 1 + n := by omega
          rw [harith]
          simp only [retryRun, hfn]
          exact ih (i + 1)

/-- Helper: the retry loop resolves true at the first successful
invocation inside its budget. -/
theorem retryRun_first_success (fn : Nat → StepOutcome) :
    ∀ fuel i j, i ≤ j → j < i + fuel →
      (∀ k, i ≤ k → k < j → fn k ≠ StepOutcome.success) →
      fn j = StepOutcome.success →
      retryRun fn fuel i false = (Except.ok true, j + 1) := by
  intro fuel
  induction fuel with
  | zero => intro i j h1 h2 _ _; omega
  | succ n ih =>
      intro i j h1 h2 h3 hj
      rcases Nat.eq_or_lt_of_le h1 with heq | hlt
      · subst heq
        simp [retryRun, hj]
      · have hi : fn i ≠ StepOutcome.success := h3 i (Nat.le_refl i) hlt
        cases hfn : fn i with
        | success => exact absurd hfn hi
        | failure =>
            simp only [retryRun, hfn]
            exact ih (i + 1) j hlt (by omega) (fun k hk1 hk2 => h3 k (by omega) hk2) hj
        | throws =>
            simp only [retryRun, hfn]
            exact ih (i + 1) j hlt (by omega) (fun k hk1 hk2 => h3 k (by omega) hk2) hj

/-- Helper: a resolved retry loop never resolves false. -/
theorem retryRun_ok_true (fn : Nat → StepOutcome) :
    ∀ fuel i p b n, retryRun fn fuel i p = (Except.ok b, n) → b = true := by
  intro fuel
  induction fuel with
  | zero =>
      intro i p b n h
      simp [retryRun] at h
  | succ m ih =>
      intro i p b n h
      cases hfn : fn i with
      | success =>
          simp [retryRun, hfn] at h
          exact h.1
      | failure =>
          simp only [retryRun, hfn] at h
          simp at h
          exact ih (i + 1) false b n h
      | throws =>
          cases p with
          | true =>
              simp [retryRun, hfn] at h
              exact h.1
          | false =>
              simp only [retryRun, hfn] at h
              simp at h
              exact ih (i + 1) false b n h

/-- Helper: a step that passes the orchestrator loop never reports a
false resolution from retry. -/
theorem runStepE_ok_sawFalse (fn : Nat → StepOutcome) (r : Nat) (x : Nat × Bool)
    (h : runStepE fn r = Except.ok x) : x.2 = false := by
  unfold runStepE at h
  cases hfn : fn 0 with
  | success =>
      simp [hfn] at h
      rw [← h]
  | throws => simp [hfn] at h
  | failure =>
      simp only [hfn] at h
      rcases hr : retryRun fn r 1 false with ⟨eb, n⟩
      cases eb with
      | ok b =>
          have hb : b = true := retryRun_ok_true fn r 1 false b n hr
          rw [hr] at h
          simp at h
          rw [← h, hb]
          simp
      | error m =>
          rw [hr] at h
          simp at h

/-- C4: TestFunder.retry returns true on the first successful attempt;
an exception from the step is caught and counted as a failed attempt,
the loop simply moving on to the next attempt rather than rethrowing;
and a step that always fails or throws is attempted exactly r times
(the final invocation count equals the budget) before the fatal
retryFailMsg error is raised. -/
theorem retry_budget_enforcement (fn : Nat → StepOutcome) (r : Nat) :
    (∀ j, j < r → (∀ k, k < j → fn k ≠ StepOutcome.success) →
        fn j = StepOutcome.success →
        retryRun fn r 0 false = (Except.ok true, j + 1)) ∧
    (∀ fuel i, fn i = StepOutcome.throws →
        retryRun fn (fuel + 1) i false = retryRun fn fuel (i + 1) false) ∧
    ((∀ k, fn k ≠ StepOutcome.success) →
        retryRun fn r 0 false = (Except.error retryFailMsg, r)) := by
  refine ⟨?_, ?_, ?_⟩
  · intro j hj hpre hsucc
    exact retryRun_first_success fn r 0 j (Nat.zero_le j) (by omega)
      (fun k _ hk => hpre k hk) hsucc
  · intro fuel i h
    simp [retryRun, h]
  · intro h
    have hall := retryRun_always_fail fn h r 0
    simpa using hall

/-- Witness for C4 at concrete inputs: success on the second attempt
resolves true after two calls; a constant failure spends the whole
budget of five and throws. -/
theorem retry_budget_enforcement_witness :
    retryRun (fun k => if k = 1 then StepOutcome.success else StepOutcome.throws)
        5 0 false = (Except.ok true, 2) ∧
    retryRun (fun _ => StepOutcome.failure) 5 0 false
        = (Except.error retryFailMsg, 5) := by
  constructor
  · exact (retry_budget_enforcement
      (fun k => if k = 1 then StepOutcome.success else StepOutcome.throws) 5).1
      1 (by decide) (by decide) (by decide)
  · exact (retry_budget_enforcement (fun _ => StepOutcome.failure) 5).2.2
      (fun _ h => StepOutcome.noConfusion h)

/-- C5: when step 2 (approveFunding) exhausts its retry budget, step 3
(transfer) is never invoked, step 1 is not re-run, and the fatal
retryFailMsg error is the surfaced outcome: the thrown error from retry
propagates out of the step loop at once, skipping the rest of the
sequence and the final validate. -/
theorem fail_fast_ordering (imp app tra : Nat → StepOutcome) (r : Nat)
    (vR : Except String Unit)
    (h0 : imp 0 = StepOutcome.success)
    (h1 : app 0 = StepOutcome.failure)
    (h2 : ∀ k, app k ≠ StepOutcome.success) :
    execute imp app tra r vR = ⟨1, 1 + r, 0, false, Except.error retryFailMsg⟩ := by
  have hret := retryRun_always_fail app h2 r 1
  simp [execute, runStepE, h0, h1, hret]

/-- Witness for C5 at concrete inputs: step 1 always succeeds, step 2
always fails, budget 5; step 3 is invoked zero times. -/
theorem fail_fast_ordering_witness :
    execute (fun _ => StepOutcome.success) (fun _ => StepOutcome.failure)
        (fun _ => StepOutcome.success) 5 (Except.ok ())
      = ⟨1, 1 + 5, 0, false, Except.error retryFailMsg⟩ :=
  fail_fast_ordering (fun _ => StepOutcome.success) (fun _ => StepOutcome.failure)
    (fun _ => StepOutcome.success) 5 (Except.ok ()) rfl rfl
    (fun _ h => StepOutcome.noConfusion h)

/-- C10: TestFunder.retry never resolves false: a resolved call always
carries true (otherwise it throws), and consequently the orchestrator
branch that would clear isMoving after a false resolution of retry is
unreachable: the sawFalse flag of every execute trace is false. -/
theorem retry_never_false :
    (∀ fn fuel i p b n,
        retryRun fn fuel i p = (Except.ok b, n) → b = true) ∧
    (∀ imp app tra r vR, (execute imp app tra r vR).sawFalse = false) := by
  constructor
  · exact fun fn fuel i p b n h => retryRun_ok_true fn fuel i p b n h
  · intro imp app tra r vR
    unfold execute
    cases h1 : runStepE imp r with
    | error e =>
        rcases e with ⟨c, m⟩
        simp [h1]
    | ok x =>
        rcases x with ⟨c1, b1⟩
        have hf1 : b1 = false := runStepE_ok_sawFalse imp r (c1, b1) h1
        subst hf1
        cases h2 : runStepE app r with
        | error e =>
            rcases e with ⟨c, m⟩
            simp [h1, h2]
        | ok y =>
            rcases y with ⟨c2, b2⟩
            have hf2 : b2 = false := runStepE_ok_sawFalse app r (c2, b2) h2
            subst hf2
            cases h3 : runStepE tra r with
            | error e =>
                rcases e with ⟨c, m⟩
                simp [h1, h2, h3]
            | ok z =>
                rcases z with ⟨c3, b3⟩
                have hf3 : b3 = false := runStepE_ok_sawFalse tra r (c3, b3) h3
                subst hf3
                simp [h1, h2, h3]

/-- Witness for C10 at concrete inputs. -/
theorem retry_never_false_witness :
    (true : Bool) = true ∧
    (execute (fun _ => StepOutcome.success) (fun _ => StepOutcome.success)
        (fun _ => StepOutcome.success) 5 (Except.ok ())).sawFalse = false :=
  ⟨retry_never_false.1 (fun _ => StepOutcome.success) 1 0 false true 1 rfl,
   retry_never_false.2 (fun _ => StepOutcome.success) (fun _ => StepOutcome.success)
     (fun _ => StepOutcome.success) 5 (Except.ok ())⟩

/-- C1: evaluation of the transfer step at target 100 and starting
balance 105 (surplus 5).  The claw-back does send exactly the surplus 5
back to the whale and restores the balance to 100, but control then
falls through to the unconditional whale transfer of the full expected
balance, so the invocation issues a second transfer of 100 and
terminates with balance 200, not 100. -/
theorem clawback_refund_bug :
    transferPayload 100 105
      = (true, 200, [Xfer.toWhale 5, Xfer.toFunding 100]) := by
  decide

/-- C2 counterexample: at target 100 and starting balance 99 (deficit
1) the transfer step sends the full expected balance 100, not the
deficit 1, and terminates with balance 199, not 100. -/
theorem topup_counterexample :
    transferPayload 100 99 = (true, 199, [Xfer.toFunding 100]) ∧
    (199 : Nat) ≠ 100 ∧ Xfer.toFunding 100 ≠ Xfer.toFunding 1 := by
  decide

/-- C2 amended: for every starting balance T - D with 0 < D and D <= T,
a single invocation of the transfer step issues one transfer, of the
full target amount T (not the deficit D), from the whale to the funding
wallet, and terminates with balance (T - D) + T; this equals the target
only when D = T, that is when the wallet starts empty. -/
theorem topup_amended (T D : Nat) (h1 : 0 < D) (h2 : D ≤ T) :
    transferPayload T (T - D) = (true, T - D + T, [Xfer.toFunding T]) := by
  have hne : T - D ≠ T := by omega
  have hnlt : ¬ T < T - D := by omega
  simp [transferPayload, hne, hnlt]

/-- Witness for C2 amended at T = 100, D = 1. -/
theorem topup_amended_witness :
    transferPayload 100 (100 - 1)
      = (true, 100 - 1 + 100, [Xfer.toFunding 100]) :=
  topup_amended 100 1 (by decide) (by decide)

/-- C3 counterexample: at target 100 and starting balance 105, a single
invocation of the transfer step issues two transfers (not at most one
corrective transfer) and ends at balance 200; a further invocation from
200 again ends at 200, so repeated invocations never converge to the
target 100. -/
theorem reconcile_counterexample :
    (transferPayload 100 105).2.2.length = 2 ∧
    (transferPayload 100 105).2.1 = 200 ∧
    (transferPayload 100 200).2.1 = 200 ∧ (200 : Nat) ≠ 100 := by
  decide

/-- C3 amended: balance equal to the target is an idempotent fixed
point of the transfer step, reached with zero transfer commands; but
repeated invocations do not in general converge to the target: for a
positive target, any invocation from a balance above the target ends at
exactly twice the target, and twice the target is itself above the
target, so iteration stays at 2 * T and never reaches T. -/
theorem reconcile_amended (T b : Nat) :
    (b = T → transferPayload T b = (true, T, [])) ∧
    (0 < T → T < b → (transferPayload T b).2.1 = 2 * T) ∧
    (0 < T → (transferPayload T (2 * T)).2.1 = 2 * T ∧ 2 * T ≠ T) := by
  refine ⟨?_, ?_, ?_⟩
  · intro h
    subst h
    simp [transferPayload]
  · intro hT hb
    have hne : b ≠ T := by omega
    simp [transferPayload, clearBalance, hne, hb]
    omega
  · intro hT
    have hlt : T < 2 * T := by omega
    have hne : 2 * T ≠ T := by omega
    refine ⟨?_, hne⟩
    simp [transferPayload, clearBalance, hne, hlt]
    omega

/-- Witness for C3 amended at T = 100 and b = 100 (fixed point) and at
b = 105 (stuck above target). -/
theorem reconcile_amended_witness :
    transferPayload 100 100 = (true, 100, []) ∧
    (transferPayload 100 105).2.1 = 2 * 100 ∧
    (transferPayload 100 (2 * 100)).2.1 = 2 * 100 ∧ 2 * 100 ≠ 100 :=
  ⟨(reconcile_amended 100 100).1 rfl,
   (reconcile_amended 100 105).2.1 (by decide) (by decide),
   (reconcile_amended 100 105).2.2 (by decide)⟩

/-- C6 counterexample: with allowance floor 10 and balance target 100,
a final reading of allowance 10 and balance 101 passes validate, so the
run terminates as converged (exit 0) while the funding wallet balance
strictly exceeds the target. -/
theorem validate_overfund_counterexample :
    validate 10 100 10 101 = Except.ok () ∧ (100 : Nat) < 101 :=
  ⟨rfl, by decide⟩

/-- C6 amended: validate accepts exactly the final states with
allowance at least the floor and balance at least the target; a balance
strictly above the target therefore passes validation, and the engine
can terminate converged while over-provisioned.  Over-provisioning is
corrected only by the claw-back branch at transfer time, not rejected
at validation. -/
theorem validate_ge_amended (fa t a b : Nat) :
    validate fa t a b = Except.ok () ↔ (fa ≤ a ∧ t ≤ b) := by
  unfold validate
  split_ifs with h1 h2
  · simp
    omega
  · simp
    omega
  · simp
    omega

/-- C7 counterexample: two runs whose last-observed allowances differ
(5 versus 7, both below the floor 10) terminate with the same fixed
error message, so the fatal validation error does not carry the
last-observed allowance or balance readings. -/
theorem validate_fixed_message_counterexample :
    validate 10 10 5 0 = Except.error allowanceErrMsg ∧
    validate 10 10 7 0 = Except.error allowanceErrMsg ∧
    (5 : Nat) ≠ 7 :=
  ⟨rfl, rfl, by decide⟩

/-- C7 amended: when the final validation finds the allowance below the
floor it throws the allowance-specific error, and when the allowance is
sufficient but the balance is below the target it throws the
balance-specific error; the two messages are distinct, but they are
fixed strings: any two failing allowance readings produce identical
errors, so the error does not carry the observed values. -/
theorem validate_distinct_errors (fa t a b : Nat) :
    (a < fa → validate fa t a b = Except.error allowanceErrMsg) ∧
    (fa ≤ a → b < t → validate fa t a b = Except.error balanceErrMsg) ∧
    allowanceErrMsg ≠ balanceErrMsg ∧
    (∀ a2 b2, a < fa → a2 < fa →
        validate fa t a b = validate fa t a2 b2) := by
  refine ⟨?_, ?_, ?_, ?_⟩
  · intro h
    simp [validate, h]
  · intro h1 h2
    have hna : ¬ a < fa := by omega
    simp [validate, hna, h2]
  · decide
  · intro a2 b2 h1 h2
    simp [validate, h1, h2]

/-- Witness for C7 amended at concrete readings. -/
theorem validate_distinct_errors_witness :
    validate 10 10 5 0 = Except.error allowanceErrMsg ∧
    validate 10 10 10 3 = Except.error balanceErrMsg :=
  ⟨(validate_distinct_errors 10 10 5 0).1 (by decide),
   (validate_distinct_errors 10 10 10 3).2.1 (by decide) (by decide)⟩

/-- C8: evaluation of the Anvil readiness loop of main with budget 5.
When the probe first succeeds on the fifth and last budgeted attempt
(index 4), the loop still throws anvilErrMsg, because the retries
counter reaches zero in that same iteration and the throw fires before
the while condition can observe readiness; a success on the fourth
attempt (index 3) proceeds normally. -/
theorem probe_last_attempt_bug :
    anvilWait (fun k => decide (k = 4)) 0 5 = Except.error anvilErrMsg ∧
    anvilWait (fun k => decide (k = 3)) 0 5 = Except.ok () :=
  ⟨rfl, rfl⟩

/-- C9 counterexample: when the impersonate step throws on its very
first invocation, the exception propagates straight out of the step
loop after a single call, with the retry budget of 5 untouched and the
retry executor never entered: the surfaced error is the raw spawn
error, not the retry-exhaustion error. -/
theorem exec_first_call_throw_counterexample :
    execute (fun _ => StepOutcome.throws) (fun _ => StepOutcome.success)
        (fun _ => StepOutcome.success) 5 (Except.ok ())
      = ⟨1, 0, 0, false, Except.error spawnErrMsg⟩ ∧
    spawnErrMsg ≠ retryFailMsg :=
  ⟨rfl, by decide⟩

/-- C9 amended: exceptions raised during the retry executor invocations
are caught and counted as failed attempts, the loop moving on to the
next attempt; but the orchestrator invokes each step once directly,
outside the retry executor, before retrying, so an exception on a step
first call is not caught anywhere in the step loop and propagates out
immediately with one call made and the budget unspent. -/
theorem exception_boundary_amended (fn imp app tra : Nat → StepOutcome)
    (fuel i r : Nat) (vR : Except String Unit)
    (hth : fn i = StepOutcome.throws)
    (himp : imp 0 = StepOutcome.throws) :
    retryRun fn (fuel + 1) i false = retryRun fn fuel (i + 1) false ∧
    execute imp app tra r vR = ⟨1, 0, 0, false, Except.error spawnErrMsg⟩ := by
  constructor
  · simp [retryRun, hth]
  · simp [execute, runStepE, himp]

/-- Witness for C9 amended at concrete inputs. -/
theorem exception_boundary_amended_witness :
    retryRun (fun _ => StepOutcome.throws) (3 + 1) 0 false
      = retryRun (fun _ => StepOutcome.throws) 3 (0 + 1) false ∧
    execute (fun _ => StepOutcome.throws) (fun _ => StepOutcome.success)
        (fun _ => StepOutcome.success) 5 (Except.ok ())
      = ⟨1, 0, 0, false, Except.error spawnErrMsg⟩ :=
  exception_boundary_amended (fun _ => StepOutcome.throws)
    (fun _ => StepOutcome.throws) (fun _ => StepOutcome.success)
    (fun _ => StepOutcome.success) 3 0 5 (Except.ok ()) rfl rfl
